import Mathlib

/-!
Verification of the serverless face-swap job pipeline
(`src/serverless/src` of Deep-Live-Cam).

Shallow embedding conventions:
* Python floats are modelled as `ℚ` (the probe strings produced by the media
  tool are plain decimal or rational literals, on which the Python float
  arithmetic used here — parsing, division, comparison with `0` — is exact
  enough for every property below, which only tests order and definedness).
* Exceptions are modelled with `Except` / `Option`; a Python `try/finally`
  is embedded as sequential composition of the body's result with the
  `finally` block.
* External effects (the S3 client, `ffmpeg`/`ffprobe` invocations, HTTP
  POSTs, `cv2` frame reads) are oracles: each call site takes the outcome
  of the call as an explicit argument, and the surrounding control flow is
  translated from the source.
-/

set_option autoImplicit false

/-! ## Retry loop (shared shape of `S3Service.download`, `S3Service.upload`,
`CallbackService.send`)

Each of the three Python methods runs
`for attempt in range(max_retries): try: ... except ...: last_error = ...`
with a back-off sleep guarded by `attempt < max_retries - 1`, and
`raise last_error` after the loop. -/

/-- Trace of one retry loop execution: number of loop iterations that ran an
attempt, the sleep durations inserted between attempts (in order), and the
outcome (`Except.error none` models `raise last_error` with
`last_error = None`, which is not a typed error). -/
structure RetryTrace (E α : Type) where
  attemptsMade : Nat
  delays : List Nat
  result : Except (Option E) α

/-- The retry `for` loop over the remaining attempt indices `idxs`.
`dly i` is the back-off slept after a failed attempt `i` when
`i < maxRetries - 1`; the `Option E` argument is the `last_error`
accumulator. -/
def retryGo {E α : Type} (dly : Nat → Nat) (f : Nat → Except E α)
    (maxRetries : Nat) : List Nat → Option E → RetryTrace E α
  | [], last => ⟨0, [], .error last⟩
  | i :: rest, _ =>
    match f i with
    | .ok a => ⟨1, [], .ok a⟩
    | .error e =>
      let t := retryGo dly f maxRetries rest (some e)
      ⟨t.attemptsMade + 1,
       (if i < maxRetries - 1 then [dly i] else []) ++ t.delays,
       t.result⟩

/-- `for attempt in range(max_retries): ...` followed by `raise last_error`. -/
def runRetry {E α : Type} (dly : Nat → Nat) (f : Nat → Except E α)
    (maxRetries : Nat) : RetryTrace E α :=
  retryGo dly f maxRetries (List.range maxRetries) none

/-- If every attempt listed in `idxs` fails (attempt `i` with error `e i`),
the loop runs all of them, sleeps exactly after the non-final indices, and
ends carrying the error of the last listed attempt. -/
theorem retryGo_allFail {E α : Type} (dly : Nat → Nat) (f : Nat → Except E α)
    (maxRetries : Nat) (e : Nat → E) :
    ∀ (idxs : List Nat) (last : Option E),
      (∀ i ∈ idxs, f i = .error (e i)) →
      (retryGo dly f maxRetries idxs last).attemptsMade = idxs.length ∧
      (retryGo dly f maxRetries idxs last).delays =
        (idxs.filter (fun i => i < maxRetries - 1)).map dly ∧
      (retryGo dly f maxRetries idxs last).result =
        .error (match idxs.getLast? with
                | some j => some (e j)
                | none => last) := by
  intro idxs
  induction idxs with
  | nil => intro last _; exact ⟨rfl, rfl, rfl⟩
  | cons i rest ih =>
    intro last hfail
    have hi : f i = .error (e i) := hfail i (List.mem_cons_self i rest)
    have hrest : ∀ j ∈ rest, f j = .error (e j) :=
      fun j hj => hfail j (List.mem_cons_of_mem i hj)
    obtain ⟨h1, h2, h3⟩ := ih (some (e i)) hrest
    refine ⟨?_, ?_, ?_⟩
    · simp only [retryGo, hi, h1, List.length_cons]
    · simp only [retryGo, hi, h2, List.filter_cons]
      by_cases h : i < maxRetries - 1 <;> simp [h]
    · simp only [retryGo, hi, h3]
      cases rest with
      | nil => simp
      | cons j rest2 =>
        cases hgl : (j :: rest2).getLast? with
        | none => exact absurd (List.getLast?_eq_none_iff.mp hgl) (by simp)
        | some x => simp [List.getLast?_cons_cons, hgl]

/-- If every attempt in `l1` fails and attempt `k` succeeds with `a`, the loop
stops right after attempt `k`. -/
theorem retryGo_firstSuccess {E α : Type} (dly : Nat → Nat) (f : Nat → Except E α)
    (maxRetries : Nat) (e : Nat → E) (k : Nat) (a : α) (hk : f k = .ok a) :
    ∀ (l1 l2 : List Nat) (last : Option E),
      (∀ i ∈ l1, f i = .error (e i)) →
      (retryGo dly f maxRetries (l1 ++ k :: l2) last).attemptsMade = l1.length + 1 ∧
      (retryGo dly f maxRetries (l1 ++ k :: l2) last).delays =
        (l1.filter (fun i => i < maxRetries - 1)).map dly ∧
      (retryGo dly f maxRetries (l1 ++ k :: l2) last).result = .ok a := by
  intro l1
  induction l1 with
  | nil =>
    intro l2 last _
    refine ⟨?_, ?_, ?_⟩ <;> simp [retryGo, hk]
  | cons i rest ih =>
    intro l2 last hfail
    have hi : f i = .error (e i) := hfail i (List.mem_cons_self i rest)
    have hrest : ∀ j ∈ rest, f j = .error (e j) :=
      fun j hj => hfail j (List.mem_cons_of_mem i hj)
    obtain ⟨h1, h2, h3⟩ := ih l2 (some (e i)) hrest
    refine ⟨?_, ?_, ?_⟩
    · simp only [List.cons_append, retryGo, hi, List.length_cons]
      simpa using h1
    · simp only [List.cons_append, retryGo, hi, List.filter_cons]
      have h2d : (retryGo dly f maxRetries (rest.append (k :: l2)) (some (e i))).delays =
          List.map dly (List.filter (fun i => decide (i < maxRetries - 1)) rest) := h2
      rw [h2d]
      by_cases h : i < maxRetries - 1 <;> simp [h]
    · simp only [List.cons_append, retryGo, hi]
      exact h3

theorem filter_lt_range (n : Nat) :
    (List.range n).filter (fun i => i < n - 1) = List.range (n - 1) := by
  cases n with
  | zero => rfl
  | succ m =>
    have hsplit : (List.range (m + 1)).filter (fun i => decide (i < m)) =
        (List.range m).filter (fun i => decide (i < m)) ++
          (List.filter (fun i => decide (i < m)) [m]) := by
      rw [List.range_succ, List.filter_append]
    have h2 : (List.range m).filter (fun i => decide (i < m)) = List.range m :=
      List.filter_eq_self.mpr (by intro a ha; simpa using List.mem_range.mp ha)
    simp only [Nat.add_sub_cancel]
    rw [show (fun i => decide (i < m)) = (fun i => decide (i < m)) from rfl] at *
    simp only [hsplit, h2]
    simp

/-- All `maxRetries` attempts fail: the full trace of the loop. -/
theorem runRetry_allFail {E α : Type} (dly : Nat → Nat) (f : Nat → Except E α)
    (maxRetries : Nat) (e : Nat → E) (hpos : 0 < maxRetries)
    (hfail : ∀ i < maxRetries, f i = .error (e i)) :
    (runRetry dly f maxRetries).attemptsMade = maxRetries ∧
    (runRetry dly f maxRetries).delays = (List.range (maxRetries - 1)).map dly ∧
    (runRetry dly f maxRetries).result = .error (some (e (maxRetries - 1))) := by
  obtain ⟨h1, h2, h3⟩ := retryGo_allFail dly f maxRetries e (List.range maxRetries) none
    (fun i hi => hfail i (List.mem_range.mp hi))
  have hlast : (List.range maxRetries).getLast? = some (maxRetries - 1) := by
    obtain ⟨m, rfl⟩ := Nat.exists_eq_add_of_lt hpos
    simp only [Nat.zero_add, List.range_succ, Nat.add_sub_cancel]
    exact List.getLast?_concat _
  rw [hlast] at h3
  exact ⟨by simpa using h1, by rw [runRetry, h2, filter_lt_range], h3⟩

/-- First success at index `k` (all earlier attempts fail): the loop makes
`k + 1` attempts, sleeps `dly 0, …, dly (k-1)`, and returns the value. -/
theorem runRetry_firstSuccess {E α : Type} (dly : Nat → Nat) (f : Nat → Except E α)
    (maxRetries : Nat) (e : Nat → E) (k : Nat) (a : α)
    (hklt : k < maxRetries) (hk : f k = .ok a)
    (hfail : ∀ i < k, f i = .error (e i)) :
    (runRetry dly f maxRetries).attemptsMade = k + 1 ∧
    (runRetry dly f maxRetries).delays = (List.range k).map dly ∧
    (runRetry dly f maxRetries).result = .ok a := by
  obtain ⟨m, hm⟩ := Nat.exists_eq_add_of_lt hklt
  have hsplit : List.range maxRetries =
      List.range k ++ k :: (List.range m).map (fun j => k + 1 + j) := by
    have hmr : maxRetries = (k + 1) + m := by omega
    rw [hmr, List.range_add, List.range_succ]
    simp [List.append_assoc]
  obtain ⟨h1, h2, h3⟩ := retryGo_firstSuccess dly f maxRetries e k a hk
    (List.range k) ((List.range m).map (fun j => k + 1 + j)) none
    (fun i hi => hfail i (List.mem_range.mp hi))
  have hfilt : (List.range k).filter (fun i => i < maxRetries - 1) = List.range k := by
    apply List.filter_eq_self.mpr
    intro i hi
    have hik : i < k := List.mem_range.mp hi
    simp only [decide_eq_true_eq]
    omega
  rw [runRetry, hsplit]
  rw [hfilt] at h2
  exact ⟨by simpa using h1, h2, h3⟩

/-! ## `S3Service` (`src/services/s3_service.py`)

`download` / `upload` retry with back-off `2 ** attempt`; `check_exists`
wraps `head_object`. The S3 client calls are oracles: a function from the
attempt index to that attempt's outcome. -/

/-- `S3Error(code, message, original_error)`; the message is folded into
`cause`, which records the underlying exception (`original_error`). -/
structure S3ErrM where
  code : String
  cause : Option String
  deriving Repr, DecidableEq

/-- Outcome of one `client.download_file` call, together with the state of
the local file afterwards: `transferred fileExists fileSize` means the call
returned and the local file then exists (or not) with the given size. -/
inductive DlAttempt
  | clientError (code : String)
  | otherError (msg : String)
  | transferred (fileExists : Bool) (fileSize : Nat)
  deriving Repr, DecidableEq

/-- Body of the `try` block of one download attempt.  Mirrors the source:
after `download_file` returns, only `os.path.exists(local_path)` is
checked; `os.path.getsize(local_path)` is computed for the log line only,
so the `fileSize` component is never inspected. -/
def S3Service.downloadAttempt : DlAttempt → Except S3ErrM Unit
  | .clientError c => .error ⟨"S3_DOWNLOAD_ERROR", some c⟩
  | .otherError m => .error ⟨"S3_DOWNLOAD_ERROR", some m⟩
  | .transferred false _ => .error ⟨"S3_DOWNLOAD_ERROR", some "Downloaded file not found"⟩
  | .transferred true _ => .ok ()

/-- Default of the `max_retries` parameter of `download` and `upload`. -/
def S3Service.max_retries_default : Nat := 3

/-- `S3Service.download`: the retry loop with back-off `2 ** attempt`
slept only while `attempt < max_retries - 1`. -/
def S3Service.download (attempts : Nat → DlAttempt) (max_retries : Nat) :
    RetryTrace S3ErrM Unit :=
  runRetry (fun attempt => 2 ^ attempt)
    (fun i => S3Service.downloadAttempt (attempts i)) max_retries

/-- Outcome of one `client.upload_file` call. -/
inductive UlAttempt
  | clientError (code : String)
  | otherError (msg : String)
  | uploaded
  deriving Repr, DecidableEq

/-- Body of the `try` block of one upload attempt. -/
def S3Service.uploadAttempt : UlAttempt → Except S3ErrM Unit
  | .clientError c => .error ⟨"S3_UPLOAD_ERROR", some c⟩
  | .otherError m => .error ⟨"S3_UPLOAD_ERROR", some m⟩
  | .uploaded => .ok ()

/-- `S3Service.upload`: verifies the local file exists before the loop
(raising without any attempt if not), then retries like `download`. -/
def S3Service.upload (localExists : Bool) (attempts : Nat → UlAttempt)
    (max_retries : Nat) : RetryTrace S3ErrM Unit :=
  if localExists then
    runRetry (fun attempt => 2 ^ attempt)
      (fun i => S3Service.uploadAttempt (attempts i)) max_retries
  else ⟨0, [], .error (some ⟨"S3_UPLOAD_ERROR", none⟩)⟩

/-- Outcome of `client.head_object`. -/
inductive HeadObjectResult
  | ok
  | clientError (code : String)
  deriving Repr, DecidableEq

/-- `S3Service.check_exists`: `head_object` in a `try`, `except ClientError:
return False`. -/
def S3Service.check_exists : HeadObjectResult → Bool
  | .ok => true
  | .clientError _ => false

/-- The delays `2 ^ 0, 2 ^ 1, …` are strictly increasing. -/
theorem pow_two_delays_sorted (k : Nat) :
    List.Pairwise (· < ·) ((List.range k).map (fun i => 2 ^ i)) := by
  refine List.Pairwise.map _ (fun a b hab => ?_) (List.pairwise_lt_range k)
  exact Nat.pow_lt_pow_right (by omega) hab

/-- C2: the spec requires `download` to verify, after a successful transfer,
that the local file exists *and is non-empty*, treating a zero-byte file as
a failed attempt.  The code checks only `os.path.exists`: a transfer that
leaves an existing zero-byte local file is returned as success on the first
attempt, with no retry and no error — contradicting the source's own inline
comment ("Verify file exists and has content"). -/
theorem C2_download_returns_empty_file :
    (S3Service.download (fun _ => DlAttempt.transferred true 0) 3).result = .ok () ∧
    (S3Service.download (fun _ => DlAttempt.transferred true 0) 3).attemptsMade = 1 ∧
    (S3Service.download (fun _ => DlAttempt.transferred true 0) 3).delays = [] :=
  ⟨rfl, rfl, rfl⟩

/-- C3: when every attempt of a download or upload fails, exactly
`max_retries` attempts are made (default 3) and then a typed `S3Error`
carrying the last attempt's underlying cause is raised; the back-off delays
are `2 ^ attempt` for the non-final attempts, strictly increasing, with no
delay after the final attempt. -/
theorem C3_transfer_retry_exhaustion
    (N : Nat) (hpos : 0 < N)
    (dl : Nat → DlAttempt) (dlErr : Nat → S3ErrM)
    (hdl : ∀ i < N, S3Service.downloadAttempt (dl i) = .error (dlErr i))
    (ul : Nat → UlAttempt) (ulErr : Nat → S3ErrM)
    (hul : ∀ i < N, S3Service.uploadAttempt (ul i) = .error (ulErr i)) :
    (S3Service.download dl N).attemptsMade = N ∧
    (S3Service.download dl N).result = .error (some (dlErr (N - 1))) ∧
    (S3Service.download dl N).delays =
      (List.range (N - 1)).map (fun attempt => 2 ^ attempt) ∧
    (S3Service.download dl N).delays.length = N - 1 ∧
    List.Pairwise (· < ·) (S3Service.download dl N).delays ∧
    (S3Service.upload true ul N).attemptsMade = N ∧
    (S3Service.upload true ul N).result = .error (some (ulErr (N - 1))) ∧
    (S3Service.upload true ul N).delays =
      (List.range (N - 1)).map (fun attempt => 2 ^ attempt) ∧
    S3Service.max_retries_default = 3 := by
  obtain ⟨d1, d2, d3⟩ := runRetry_allFail (fun attempt => 2 ^ attempt)
    (fun i => S3Service.downloadAttempt (dl i)) N dlErr hpos hdl
  obtain ⟨u1, u2, u3⟩ := runRetry_allFail (fun attempt => 2 ^ attempt)
    (fun i => S3Service.uploadAttempt (ul i)) N ulErr hpos hul
  have hupl : S3Service.upload true ul N =
      runRetry (fun attempt => 2 ^ attempt)
        (fun i => S3Service.uploadAttempt (ul i)) N := rfl
  refine ⟨d1, d3, d2, ?_, ?_, ?_, ?_, ?_, rfl⟩
  · rw [show (S3Service.download dl N).delays =
        (List.range (N - 1)).map (fun attempt => 2 ^ attempt) from d2]
    simp
  · rw [show (S3Service.download dl N).delays =
        (List.range (N - 1)).map (fun attempt => 2 ^ attempt) from d2]
    exact pow_two_delays_sorted (N - 1)
  · rw [hupl]; exact u1
  · rw [hupl]; exact u3
  · rw [hupl]; exact u2

/-- Witness for C3 at `N = 3`, every download attempt a client error and
every upload attempt a transport error. -/
theorem C3_transfer_retry_exhaustion_witness :
    (S3Service.download (fun _ => DlAttempt.clientError "AccessDenied") 3).attemptsMade = 3 ∧
    (S3Service.download (fun _ => DlAttempt.clientError "AccessDenied") 3).result =
      .error (some ⟨"S3_DOWNLOAD_ERROR", some "AccessDenied"⟩) ∧
    (S3Service.download (fun _ => DlAttempt.clientError "AccessDenied") 3).delays = [1, 2] ∧
    (S3Service.upload true (fun _ => UlAttempt.otherError "reset") 3).attemptsMade = 3 ∧
    (S3Service.upload true (fun _ => UlAttempt.otherError "reset") 3).result =
      .error (some ⟨"S3_UPLOAD_ERROR", some "reset"⟩) := by
  obtain ⟨h1, h2, h3, _, _, h6, h7, h8, _⟩ := C3_transfer_retry_exhaustion 3 (by decide)
    (fun _ => DlAttempt.clientError "AccessDenied")
    (fun _ => ⟨"S3_DOWNLOAD_ERROR", some "AccessDenied"⟩) (fun i _ => rfl)
    (fun _ => UlAttempt.otherError "reset")
    (fun _ => ⟨"S3_UPLOAD_ERROR", some "reset"⟩) (fun i _ => rfl)
  exact ⟨h1, h2, by rw [h3]; rfl, h6, h7⟩

/-- C10: `check_exists` returns `False` for *every* `ClientError` from the
head request — authorization failures included, not only a missing object —
so a `false` result does not distinguish "object absent" from "access
denied", and the probe never raises on a client error. -/
theorem C10_check_exists_swallows_client_errors :
    (∀ c, S3Service.check_exists (.clientError c) = false) ∧
    S3Service.check_exists (.clientError "404") =
      S3Service.check_exists (.clientError "403") ∧
    S3Service.check_exists .ok = true :=
  ⟨fun _ => rfl, rfl, rfl⟩

/-! ## `FaceSwapEngine.process_video` frame stage (`src/core/engine.py`)

`process_single_frame` runs once per extracted frame (by one worker of the
thread pool when `execution_threads > 1`, else in a plain loop); both
drivers catch any exception a frame raises and continue.  The shared
mutable state is `ProgressCallback.current` (incremented under a lock) and
`max_faces_detected` (updated under `faces_lock`).  Since every mutation is
lock-serialized and commutes with itself, the terminal state equals a fold
of the per-frame step over any serialization of the completed frames; the
`frames` list below is such a serialization, so every parallelism degree
and completion order is covered. -/

/-- How one frame's processing can go.  `readFail`: `cv2.imread` returned
`None`.  `ok n`: full success with `n` faces detected.
`raiseBeforeDetect`: the frame raised before `faces_count` was tracked
(e.g. inside face detection).  `raiseAfterDetect n`: `n` faces were
detected and tracked, then `swap`/`enhance`/`imwrite` raised. -/
inductive FrameOutcome
  | readFail
  | ok (faces : Nat)
  | raiseBeforeDetect
  | raiseAfterDetect (faces : Nat)
  deriving Repr, DecidableEq

/-- `ProgressCallback.current` and `max_faces_detected` for one stage run. -/
structure StageState where
  current : Nat
  maxFacesDetected : Nat
  deriving Repr, DecidableEq

/-- `if faces_count > 0: with faces_lock: max_faces_detected =
max(max_faces_detected, faces_count)`. -/
def trackMax (s : StageState) (n : Nat) : StageState :=
  if n > 0 then { s with maxFacesDetected := max s.maxFacesDetected n } else s

/-- `progress.increment()`. -/
def incrementProgress (s : StageState) : StageState :=
  { s with current := s.current + 1 }

/-- Effect of one `process_single_frame` call on the shared state.  The
increment is the *last* statement of the Python function, so the raising
outcomes never reach it; the unreadable-frame path increments before its
early `return 0`. -/
def process_single_frame (s : StageState) : FrameOutcome → StageState
  | .readFail => incrementProgress s
  | .ok n => incrementProgress (trackMax s n)
  | .raiseBeforeDetect => s
  | .raiseAfterDetect n => trackMax s n

/-- Terminal shared state of the frame stage (both drivers wait for every
frame to finish and absorb per-frame exceptions). -/
def runStage (frames : List FrameOutcome) : StageState :=
  frames.foldl process_single_frame ⟨0, 0⟩

/-- Whether `process_single_frame` reaches `progress.increment()`. -/
def countsFrame : FrameOutcome → Bool
  | .readFail => true
  | .ok _ => true
  | .raiseBeforeDetect => false
  | .raiseAfterDetect _ => false

/-- The per-frame detection count that reaches the `max` tracking. -/
def observedFaces : FrameOutcome → Nat
  | .readFail => 0
  | .ok n => n
  | .raiseBeforeDetect => 0
  | .raiseAfterDetect n => n

theorem trackMax_current (s : StageState) (n : Nat) : (trackMax s n).current = s.current := by
  unfold trackMax; split <;> rfl

theorem trackMax_max (s : StageState) (n : Nat) :
    (trackMax s n).maxFacesDetected = max s.maxFacesDetected n := by
  unfold trackMax
  split
  · rfl
  · simp only [not_lt, Nat.le_zero] at *
    omega

theorem runStage_current_aux :
    ∀ (frames : List FrameOutcome) (s : StageState),
      (frames.foldl process_single_frame s).current =
        s.current + (frames.filter countsFrame).length := by
  intro frames
  induction frames with
  | nil => intro s; simp
  | cons f rest ih =>
    intro s
    cases f <;>
      simp [List.foldl_cons, ih, process_single_frame, incrementProgress,
        countsFrame, List.filter_cons, trackMax_current, Nat.add_assoc, Nat.add_comm,
        Nat.add_left_comm]

theorem runStage_max_aux :
    ∀ (frames : List FrameOutcome) (s : StageState),
      (frames.foldl process_single_frame s).maxFacesDetected =
        (frames.map observedFaces).foldl max s.maxFacesDetected := by
  intro frames
  induction frames with
  | nil => intro s; simp
  | cons f rest ih =>
    intro s
    cases f <;>
      simp [List.foldl_cons, ih, process_single_frame, incrementProgress,
        observedFaces, trackMax_max]

theorem foldl_max_init_le : ∀ (l : List Nat) (a : Nat), a ≤ l.foldl max a := by
  intro l
  induction l with
  | nil => intro a; exact Nat.le_refl a
  | cons x rest ih =>
    intro a
    exact Nat.le_trans (Nat.le_max_left a x) (ih (max a x))

theorem foldl_max_mem_le : ∀ (l : List Nat) (a x : Nat), x ∈ l → x ≤ l.foldl max a := by
  intro l
  induction l with
  | nil => intro a x hx; cases hx
  | cons y rest ih =>
    intro a x hx
    rcases List.mem_cons.mp hx with h | h
    · subst h
      exact Nat.le_trans (Nat.le_max_right a x) (foldl_max_init_le rest (max a x))
    · exact ih (max a y) x h

/-- Small helper: a filter and its negation split the length of a list. -/
theorem length_filter_split (p : FrameOutcome → Bool) :
    ∀ (l : List FrameOutcome),
      (l.filter p).length + (l.filter (fun f => !p f)).length = l.length := by
  intro l
  induction l with
  | nil => rfl
  | cons f rest ih =>
    simp only [List.filter_cons]
    cases hp : p f <;> simp [hp, ← ih, Nat.add_assoc, Nat.add_comm, Nat.add_left_comm]

/-- C1 counterexample: with `K = 1` extracted frames, a frame whose swap or
refinement call raises yields a terminal counter of `0 ≠ K`; the claim that
the counter reaches exactly `K` for any mix of successes and failures is
false on the code. -/
theorem C1_counter_misses_raised_frames :
    (runStage [FrameOutcome.raiseAfterDetect 1]).current ≠
      [FrameOutcome.raiseAfterDetect 1].length := by decide

/-- C1 (amended): the shared progress counter is only ever incremented
(monotonically non-decreasing), and at stage end it equals the number of
frames that reached the increment — `K` minus the number of frames whose
processing raised an exception.  In particular it equals exactly `K`
whenever no frame raises (frames whose read fails are still counted). -/
theorem C1_progress_monotone_and_terminal (frames : List FrameOutcome) :
    (∀ (s : StageState) (f : FrameOutcome), s.current ≤ (process_single_frame s f).current) ∧
    (runStage frames).current = (frames.filter countsFrame).length ∧
    (runStage frames).current =
      frames.length - (frames.filter (fun f => !countsFrame f)).length ∧
    ((∀ f ∈ frames, countsFrame f = true) → (runStage frames).current = frames.length) := by
  have hcur : (runStage frames).current = (frames.filter countsFrame).length := by
    simpa [runStage] using runStage_current_aux frames ⟨0, 0⟩
  refine ⟨?_, hcur, ?_, ?_⟩
  · intro s f
    cases f <;> simp [process_single_frame, incrementProgress, trackMax_current]
  · have hsplit := length_filter_split countsFrame frames
    omega
  · intro hall
    have hfilt : frames.filter countsFrame = frames := List.filter_eq_self.mpr hall
    rw [hcur, hfilt]

/-- Witness for C1 (amended) on a concrete run: one successful frame and one
unreadable frame give a terminal counter of exactly `K = 2`. -/
theorem C1_progress_witness :
    (runStage [FrameOutcome.ok 2, FrameOutcome.readFail]).current = 2 := by
  have h := C1_progress_monotone_and_terminal [FrameOutcome.ok 2, FrameOutcome.readFail]
  simpa using h.2.2.2 (by decide)

/-- `ProcessingResultData` as built at the end of `process_video`
(engine.py): `fps` from the `keep_fps` branch, `duration` copied from the
probe, `frames_processed = total_frames`, `faces_detected` from the shared
running maximum.  The wall-clock `processing_time` field is not modelled. -/
structure ProcessingResultData where
  fps : ℚ
  duration : ℚ
  frames_processed : Nat
  faces_detected : Nat
  deriving Repr, DecidableEq

/-- The result summary of one `FaceSwapEngine.process_video` run, as a
function of the probed video info, the options and the per-frame outcomes:
`fps = video_info['fps'] if options.keep_fps else 30.0`,
`duration = video_info['duration']`. -/
def FaceSwapEngine.process_video_result (keep_fps : Bool)
    (video_fps video_duration : ℚ) (frames : List FrameOutcome) :
    ProcessingResultData :=
  { fps := if keep_fps then video_fps else 30
    duration := video_duration
    frames_processed := frames.length
    faces_detected := (runStage frames).maxFacesDetected }

/-- C7: the reported frame rate is the probed rate when `keep_fps` is set
and `30` otherwise; the reported duration is the probed duration unchanged
(independent of the frame outcomes, hence not recomputed from frame
count); and `faces_detected` is the *maximum* per-frame detection count
observed across all frames — an upper bound of every frame's count, not a
sum. -/
theorem C7_result_stats (keep_fps : Bool) (vfps vdur : ℚ)
    (frames : List FrameOutcome) :
    (FaceSwapEngine.process_video_result true vfps vdur frames).fps = vfps ∧
    (FaceSwapEngine.process_video_result false vfps vdur frames).fps = 30 ∧
    (FaceSwapEngine.process_video_result keep_fps vfps vdur frames).duration = vdur ∧
    (FaceSwapEngine.process_video_result keep_fps vfps vdur frames).faces_detected =
      (frames.map observedFaces).foldl max 0 ∧
    (∀ f ∈ frames, observedFaces f ≤
      (FaceSwapEngine.process_video_result keep_fps vfps vdur frames).faces_detected) := by
  have hmax : (FaceSwapEngine.process_video_result keep_fps vfps vdur frames).faces_detected =
      (frames.map observedFaces).foldl max 0 := runStage_max_aux frames ⟨0, 0⟩
  refine ⟨rfl, rfl, rfl, hmax, ?_⟩
  intro f hf
  rw [hmax]
  exact foldl_max_mem_le _ 0 _ (List.mem_map_of_mem observedFaces hf)

/-- Witness for C7 on a concrete run: three frames with 3, 5 (raised after
detection) and 0 detections report `faces_detected = 5` (the maximum, not
the sum 8), the probed rate and the probed duration. -/
theorem C7_result_stats_witness :
    (FaceSwapEngine.process_video_result true (30000 / 1001) (21 / 2)
      [FrameOutcome.ok 3, FrameOutcome.raiseAfterDetect 5, FrameOutcome.readFail]).faces_detected = 5 ∧
    (FaceSwapEngine.process_video_result true (30000 / 1001) (21 / 2)
      [FrameOutcome.ok 3, FrameOutcome.raiseAfterDetect 5, FrameOutcome.readFail]).fps = 30000 / 1001 ∧
    (FaceSwapEngine.process_video_result true (30000 / 1001) (21 / 2)
      [FrameOutcome.ok 3, FrameOutcome.raiseAfterDetect 5, FrameOutcome.readFail]).duration = 21 / 2 ∧
    observedFaces (FrameOutcome.ok 3) ≤
      (FaceSwapEngine.process_video_result true (30000 / 1001) (21 / 2)
        [FrameOutcome.ok 3, FrameOutcome.raiseAfterDetect 5, FrameOutcome.readFail]).faces_detected := by
  have h := C7_result_stats true (30000 / 1001) (21 / 2)
    [FrameOutcome.ok 3, FrameOutcome.raiseAfterDetect 5, FrameOutcome.readFail]
  exact ⟨by decide, h.1, h.2.2.1, h.2.2.2.2 (FrameOutcome.ok 3) (by decide)⟩

/-! ## `CallbackService` (`src/services/callback_service.py`) -/

/-- `CallbackError(message)`. -/
structure CallbackErrM where
  message : String
  deriving Repr, DecidableEq

/-- Outcome of one `requests.post` call. -/
inductive CbAttempt
  | status (code : Nat) (body : String)
  | timeout
  | transportError (msg : String)
  | otherError (msg : String)
  deriving Repr, DecidableEq

/-- Body of the `try` block of one callback attempt: success iff
`response.status_code >= 200 and response.status_code < 300`; every other
outcome records a `CallbackError` as `last_error`. -/
def CallbackService.attemptResult : CbAttempt → Except CallbackErrM Unit
  | .status c body =>
      if 200 ≤ c ∧ c < 300 then .ok ()
      else .error ⟨"Callback returned status " ++ toString c ++ ": " ++ body⟩
  | .timeout => .error ⟨"Callback timed out"⟩
  | .transportError m => .error ⟨"Callback request failed: " ++ m⟩
  | .otherError m => .error ⟨"Unexpected error: " ++ m⟩

/-- `settings.callback_max_retries` default (config.py). -/
def settings.callback_max_retries : Nat := 3

/-- `CallbackService.send`: the retry loop with back-off `5 * (3 ** attempt)`
slept only while `attempt < max_retries - 1`. -/
def CallbackService.send (attempts : Nat → CbAttempt) (max_retries : Nat) :
    RetryTrace CallbackErrM Unit :=
  runRetry (fun attempt => 5 * 3 ^ attempt)
    (fun i => CallbackService.attemptResult (attempts i)) max_retries

/-! ## `TempStorage` (`src/services/temp_storage.py`) and the job handler
(`src/handler.py`)

The handler builds a `TempStorage(job_id)` (creating the scratch
directory), runs the whole job inside one `try`, maps failures to
`ProcessingError` codes in `except` clauses, and calls
`temp_storage.cleanup()` in the `finally` block; the `finally` is embedded
as unconditional sequential composition after the body's result. -/

/-- Result of `TempStorage.cleanup`: whether the scratch directory still
exists and whether the call raised.  `rmtreeOk` is the oracle for
`shutil.rmtree`; its exception is caught inside `cleanup`, so `raised` is
`false` on every path, and a missing directory skips the removal. -/
structure CleanupResult where
  dirExists : Bool
  raised : Bool
  deriving Repr, DecidableEq

/-- `TempStorage.cleanup`: `if os.path.exists(job_dir): try rmtree except
log`. -/
def TempStorage.cleanup (dirExists rmtreeOk : Bool) : CleanupResult :=
  if dirExists then
    if rmtreeOk then ⟨false, false⟩ else ⟨true, false⟩
  else ⟨false, false⟩

/-- `validate_video_constraints` (validators.py): duration checked first,
then size. -/
def validate_video_constraints (duration size_mb max_duration max_size : ℚ) :
    Option String :=
  if duration > max_duration then some "VIDEO_TOO_LONG"
  else if size_mb > max_size then some "FILE_TOO_LARGE"
  else none

/-- How `engine.process_video` ends, as seen by the handler's `except`
clauses: success, a `ValueError` whose message names the source face, a
`ValueError` whose message names a face elsewhere, another `ValueError`,
or any other exception. -/
inductive ProcessOutcome
  | ok
  | valueErrorSourceFace
  | valueErrorFace
  | valueErrorOther
  | otherException
  deriving Repr, DecidableEq

/-- One job's environment: the outcome of every external call the handler
makes. -/
structure HandlerEnv where
  initialized : Bool
  initOk : Bool
  validationError : Option String
  srcDownloadOk : Bool
  tgtDownloadOk : Bool
  duration : ℚ
  size_mb : ℚ
  processOutcome : ProcessOutcome
  uploadOk : Bool
  callback_url : Bool
  callbackOk : Bool
  rmtreeOk : Bool

/-- What the `try` body of the handler produces before `finally` runs. -/
structure HandlerBody where
  status : String
  errorCode : Option String
  processVideoCalled : Bool
  deriving Repr, DecidableEq

/-- The handler's `try` body (handler.py:136-267): initialization guard,
request validation, the two S3 downloads, the video-constraint check
after probing, `engine.process_video`, the S3 upload, response building.
`processVideoCalled` records whether control reached Step 4 — frame
extraction happens inside `process_video`, so `processVideoCalled = false`
implies no frame extraction and no scratch-directory work beyond the two
downloads and probing.  A callback failure is absorbed on both the success
path (`except CallbackError` around `CallbackService.send`) and the error
path (`except Exception` in `_build_error_response`), so no field of the
outcome depends on `callbackOk`. -/
def handlerBody (env : HandlerEnv) (maxDur maxSize : ℚ) : HandlerBody :=
  if env.initialized = false ∧ env.initOk = false then
    ⟨"failed", some "INIT_FAILED", false⟩
  else
    match env.validationError with
    | some c => ⟨"failed", some c, false⟩
    | none =>
      if env.srcDownloadOk = false then ⟨"failed", some "S3_DOWNLOAD_ERROR", false⟩
      else if env.tgtDownloadOk = false then ⟨"failed", some "S3_DOWNLOAD_ERROR", false⟩
      else
        match validate_video_constraints env.duration env.size_mb maxDur maxSize with
        | some c => ⟨"failed", some c, false⟩
        | none =>
          match env.processOutcome with
          | .ok =>
            if env.uploadOk = false then ⟨"failed", some "S3_UPLOAD_ERROR", true⟩
            else ⟨"completed", none, true⟩
          | .valueErrorSourceFace => ⟨"failed", some "NO_FACE_IN_SOURCE", true⟩
          | .valueErrorFace => ⟨"failed", some "NO_FACE_IN_VIDEO", true⟩
          | .valueErrorOther => ⟨"failed", some "PROCESSING_ERROR", true⟩
          | .otherException => ⟨"failed", some "PROCESSING_ERROR", true⟩

/-- Observable trace of one handler invocation. -/
structure HandlerTrace where
  status : String
  errorCode : Option String
  processVideoCalled : Bool
  cleanupCalls : Nat
  dirExistsAfter : Bool
  deriving Repr, DecidableEq

/-- One handler invocation: `TempStorage(job_id)` creates the scratch
directory, the body runs, and the `finally` block invokes `cleanup()`
exactly once on every exit path (success, `ProcessingError`, or unexpected
exception — all of which the body's result enumerates). -/
def handler (env : HandlerEnv) (maxDur maxSize : ℚ) : HandlerTrace :=
  let body := handlerBody env maxDur maxSize
  let cl := TempStorage.cleanup true env.rmtreeOk
  ⟨body.status, body.errorCode, body.processVideoCalled, 1, cl.dirExists⟩

/-- C4: on every control-flow exit of the handler (success, validation
failure, processing failure, unexpected fault — i.e. for every environment),
the temp-storage release runs exactly once and the scratch directory is
absent afterwards (given the filesystem removal itself succeeds); and
`cleanup` on an already-removed directory does not raise — indeed no
`cleanup` call ever raises. -/
theorem C4_cleanup_every_exit_path (env : HandlerEnv) (maxDur maxSize : ℚ)
    (hrm : env.rmtreeOk = true) :
    (handler env maxDur maxSize).cleanupCalls = 1 ∧
    (handler env maxDur maxSize).dirExistsAfter = false ∧
    (∀ rOk, TempStorage.cleanup false rOk = ⟨false, false⟩) ∧
    (∀ dE rOk, (TempStorage.cleanup dE rOk).raised = false) := by
  refine ⟨rfl, ?_, fun rOk => rfl, fun dE rOk => ?_⟩
  · simp [handler, TempStorage.cleanup, hrm]
  · cases dE <;> cases rOk <;> rfl

/-- Witness for C4: a job that faults unexpectedly mid-pipeline still ends
with one cleanup call and no scratch directory. -/
theorem C4_cleanup_witness :
    (handler ⟨true, true, none, true, true, 10, 1, ProcessOutcome.otherException,
      true, false, true, true⟩ 600 2048).cleanupCalls = 1 ∧
    (handler ⟨true, true, none, true, true, 10, 1, ProcessOutcome.otherException,
      true, false, true, true⟩ 600 2048).dirExistsAfter = false := by
  have h := C4_cleanup_every_exit_path ⟨true, true, none, true, true, 10, 1,
    ProcessOutcome.otherException, true, false, true, true⟩ 600 2048 rfl
  exact ⟨h.1, h.2.1⟩

/-- C5: a job whose probed target duration exceeds the configured maximum
(and which got as far as probing: earlier steps succeeded) fails with the
duration-violation code `VIDEO_TOO_LONG`, and `process_video` — hence frame
extraction — is never invoked. -/
theorem C5_too_long_video_fails_before_extraction (env : HandlerEnv)
    (maxDur maxSize : ℚ)
    (hinit : env.initialized = true) (hval : env.validationError = none)
    (hsrc : env.srcDownloadOk = true) (htgt : env.tgtDownloadOk = true)
    (hdur : env.duration > maxDur) :
    (handler env maxDur maxSize).status = "failed" ∧
    (handler env maxDur maxSize).errorCode = some "VIDEO_TOO_LONG" ∧
    (handler env maxDur maxSize).processVideoCalled = false := by
  have hb : handlerBody env maxDur maxSize = ⟨"failed", some "VIDEO_TOO_LONG", false⟩ := by
    simp [handlerBody, validate_video_constraints, hinit, hval, hsrc, htgt, hdur]
  exact ⟨by simp [handler, hb], by simp [handler, hb], by simp [handler, hb]⟩

/-- Witness for C5: a 700-second video against the default 600-second
maximum. -/
theorem C5_too_long_video_witness :
    (handler ⟨true, true, none, true, true, 700, 1, ProcessOutcome.ok,
      true, false, true, true⟩ 600 2048).status = "failed" ∧
    (handler ⟨true, true, none, true, true, 700, 1, ProcessOutcome.ok,
      true, false, true, true⟩ 600 2048).errorCode = some "VIDEO_TOO_LONG" ∧
    (handler ⟨true, true, none, true, true, 700, 1, ProcessOutcome.ok,
      true, false, true, true⟩ 600 2048).processVideoCalled = false :=
  C5_too_long_video_fails_before_extraction _ 600 2048 rfl rfl rfl rfl (by norm_num)

/-- C8: a callback attempt succeeds exactly when the response status is in
`[200, 300)`, and the first such attempt terminates retrying; every
timeout, non-2xx status or transport error retries up to the configured
maximum (default 3) with back-off `5 * 3 ^ attempt` between attempts;
exhaustion produces the typed `CallbackError` carrying the last failure;
and the handler absorbs callback failure — a job whose media work completed
is reported `"completed"` even when the callback never succeeds. -/
theorem C8_callback_delivery :
    (∀ s body, CallbackService.attemptResult (.status s body) = .ok () ↔
      200 ≤ s ∧ s < 300) ∧
    (∀ (att : Nat → CbAttempt) (e : Nat → CallbackErrM) (N k s : Nat) (body : String),
      k < N → 200 ≤ s → s < 300 → att k = .status s body →
      (∀ i < k, CallbackService.attemptResult (att i) = .error (e i)) →
      (CallbackService.send att N).attemptsMade = k + 1 ∧
      (CallbackService.send att N).result = .ok ()) ∧
    (∀ (att : Nat → CbAttempt) (e : Nat → CallbackErrM) (N : Nat),
      0 < N → (∀ i < N, CallbackService.attemptResult (att i) = .error (e i)) →
      (CallbackService.send att N).attemptsMade = N ∧
      (CallbackService.send att N).result = .error (some (e (N - 1))) ∧
      (CallbackService.send att N).delays =
        (List.range (N - 1)).map (fun attempt => 5 * 3 ^ attempt)) ∧
    settings.callback_max_retries = 3 ∧
    (∀ (env : HandlerEnv) (maxDur maxSize : ℚ),
      env.initialized = true → env.validationError = none →
      env.srcDownloadOk = true → env.tgtDownloadOk = true →
      ¬(env.duration > maxDur) → ¬(env.size_mb > maxSize) →
      env.processOutcome = .ok → env.uploadOk = true →
      env.callback_url = true → env.callbackOk = false →
      (handler env maxDur maxSize).status = "completed") := by
  refine ⟨?_, ?_, ?_, rfl, ?_⟩
  · intro s body
    constructor
    · intro h
      by_contra hc
      simp only [CallbackService.attemptResult, if_neg hc] at h
      cases h
    · intro h
      simp [CallbackService.attemptResult, h]
  · intro att e N k s body hkN h200 h300 hatt hfail
    have hok : CallbackService.attemptResult (att k) = .ok () := by
      rw [hatt]
      simp [CallbackService.attemptResult, h200, h300]
    obtain ⟨h1, _, h3⟩ := runRetry_firstSuccess (fun attempt => 5 * 3 ^ attempt)
      (fun i => CallbackService.attemptResult (att i)) N e k () hkN hok hfail
    exact ⟨h1, h3⟩
  · intro att e N hpos hfail
    obtain ⟨x1, x2, x3⟩ := runRetry_allFail (fun attempt => 5 * 3 ^ attempt)
      (fun i => CallbackService.attemptResult (att i)) N e hpos hfail
    exact ⟨x1, x3, x2⟩
  · intro env maxDur maxSize hinit hval hsrc htgt hdur hsize hproc hupl _ _
    have hvc : validate_video_constraints env.duration env.size_mb maxDur maxSize = none := by
      simp [validate_video_constraints, hdur, hsize]
    simp [handler, handlerBody, hinit, hval, hsrc, htgt, hvc, hproc, hupl]

/-- Witness for C8: a timeout then a `204` response stop after two attempts;
three straight timeouts exhaust the default 3 retries with delays `5, 15`;
a completed job with a failing callback still reports `"completed"`. -/
theorem C8_callback_delivery_witness :
    (CallbackService.send (fun i => if i = 0 then .timeout else .status 204 "") 3).attemptsMade = 2 ∧
    (CallbackService.send (fun i => if i = 0 then .timeout else .status 204 "") 3).result = .ok () ∧
    (CallbackService.send (fun _ => .timeout) 3).attemptsMade = 3 ∧
    (CallbackService.send (fun _ => .timeout) 3).delays = [5, 15] ∧
    (CallbackService.send (fun _ => .timeout) 3).result =
      .error (some ⟨"Callback timed out"⟩) ∧
    (handler ⟨true, true, none, true, true, 10, 1, ProcessOutcome.ok,
      true, true, false, true⟩ 600 2048).status = "completed" := by
  obtain ⟨h2xx, hfirst, hexh, hdef, habsorb⟩ := C8_callback_delivery
  obtain ⟨a1, a2⟩ := hfirst (fun i => if i = 0 then .timeout else .status 204 "")
    (fun _ => ⟨"Callback timed out"⟩) 3 1 204 "" (by omega) (by omega) (by omega)
    rfl (by intro i hi; have hz : i = 0 := Nat.lt_one_iff.mp hi; subst hz; rfl)
  obtain ⟨b1, b2, b3⟩ := hexh (fun _ => .timeout) (fun _ => ⟨"Callback timed out"⟩) 3
    (by omega) (fun i _ => rfl)
  refine ⟨a1, a2, b1, ?_, b2, ?_⟩
  · rw [b3]; rfl
  · exact habsorb _ 600 2048 rfl rfl rfl rfl (by norm_num) (by norm_num) rfl rfl rfl rfl

/-! ## `VideoProcessor.restore_audio` (`src/core/video_processor.py`)

The file system state relevant to the call is the content of the target
video (an abstract content identifier) and whether the `.temp.mp4` file
exists afterwards. -/

/-- `needle` is a prefix of the second list. -/
def hasPrefixL : List Char → List Char → Bool
  | [], _ => true
  | _ :: _, [] => false
  | a :: as, b :: bs => a == b && hasPrefixL as bs

/-- Substring test, as Python's `in` on strings. -/
def containsL (needle : List Char) : List Char → Bool
  | [] => needle.isEmpty
  | b :: bs => hasPrefixL needle (b :: bs) || containsL needle bs

/-- Python `needle in haystack`. -/
def pyContains (needle haystack : String) : Bool :=
  containsL needle.toList haystack.toList

/-- Result of `restore_audio`: the returned boolean, the content of the
target video file afterwards, whether `.temp.mp4` survived, and whether
the call raised. -/
structure AudioRestoreResult where
  returned : Bool
  target : Nat
  tempExists : Bool
  raised : Bool
  deriving Repr, DecidableEq

/-- `VideoProcessor.restore_audio(source_video, target_video)`.
`audioProbe` is the `ffprobe a:0` call outcome (its stripped stdout on
exit 0, or an `FFmpegError`); `muxOk` is whether the remux `ffmpeg` run
exits 0; `tempWrittenOnFail` is whether a partial `.temp.mp4` exists when
the remux fails (the code then removes it, so the result does not depend
on it); `targetContent` / `muxedContent` are the target file's content
before the call and the remuxed content.  The audio-presence test is
`if not audio_check or "audio" not in audio_check`. -/
def VideoProcessor.restore_audio (audioProbe : Except Unit String)
    (muxOk _tempWrittenOnFail : Bool) (targetContent muxedContent : Nat) :
    AudioRestoreResult :=
  match audioProbe with
  | .error _ => ⟨false, targetContent, false, false⟩
  | .ok audio_check =>
    if audio_check = "" ∨ pyContains "audio" audio_check = false then
      ⟨false, targetContent, false, false⟩
    else if muxOk then
      ⟨true, muxedContent, false, false⟩
    else
      ⟨false, targetContent, false, false⟩

/-- C6: an audio-probe failure or a source with no audio stream makes
`restore_audio` return `false` with the target byte-for-byte unchanged;
and a media-tool failure during the remux leaves the original output
untouched, removes the temporary file, and is non-fatal (returns `false`
instead of raising). -/
theorem C6_restore_audio_degrades (probeOut : String) (muxOk tw : Bool)
    (tc mc : Nat) :
    VideoProcessor.restore_audio (.error ()) muxOk tw tc mc =
      ⟨false, tc, false, false⟩ ∧
    (pyContains "audio" probeOut = false →
      VideoProcessor.restore_audio (.ok probeOut) muxOk tw tc mc =
        ⟨false, tc, false, false⟩) ∧
    VideoProcessor.restore_audio (.ok probeOut) false tw tc mc =
      ⟨false, tc, false, false⟩ := by
  refine ⟨rfl, ?_, ?_⟩
  · intro h
    simp [VideoProcessor.restore_audio, h]
  · by_cases hc : probeOut = "" ∨ pyContains "audio" probeOut = false
    · simp [VideoProcessor.restore_audio, hc]
    · simp [VideoProcessor.restore_audio, hc]

/-- Witness for C6: an empty probe output (no audio stream) and a failing
remux on a probe output that does report audio. -/
theorem C6_restore_audio_witness :
    VideoProcessor.restore_audio (.ok "") true true 7 9 = ⟨false, 7, false, false⟩ ∧
    VideoProcessor.restore_audio (.ok "audio") false true 7 9 = ⟨false, 7, false, false⟩ ∧
    VideoProcessor.restore_audio (.error ()) true false 7 9 = ⟨false, 7, false, false⟩ := by
  obtain ⟨h1, h2, h3⟩ := C6_restore_audio_degrades "" true true 7 9
  obtain ⟨_, _, h6⟩ := C6_restore_audio_degrades "audio" false true 7 9
  exact ⟨h2 (by decide), h6, h1⟩

/-! ## `VideoProcessor.get_video_info` (`src/core/video_processor.py`)

The ffprobe stream query yields one comma-separated line
`width,height,r_frame_rate,duration,nb_frames`; the container query yields
one duration literal.  Python's `str.split` and numeric constructors are
modelled below; `float()` / `int()` are modelled on the unsigned/signed
decimal literals ffprobe emits (digits with an optional single point),
returning `none` exactly where Python raises `ValueError`. -/

/-- Python `str.split(sep)` on character lists (keeps empty pieces;
`"".split(sep) == ['']`). -/
def splitOnChar (sep : Char) : List Char → List (List Char)
  | [] => [[]]
  | c :: cs =>
    let r := splitOnChar sep cs
    if c = sep then [] :: r
    else
      match r with
      | [] => [[c]]
      | h :: t => (c :: h) :: t

/-- Python `s.split(sep)` on strings. -/
def pySplit (sep : Char) (s : String) : List String :=
  (splitOnChar sep s.toList).map (fun l => String.mk l)

/-- Digit-string value; `none` on the empty list or a non-digit. -/
def digitsToNatAux : List Char → Nat → Option Nat
  | [], acc => some acc
  | c :: cs, acc =>
    if c.isDigit then digitsToNatAux cs (acc * 10 + (c.toNat - 48)) else none

def digitsToNat (l : List Char) : Option Nat :=
  if l.isEmpty then none else digitsToNatAux l 0

/-- Unsigned decimal literal: `digits`, `digits.`, `.digits` or
`digits.digits`. -/
def pyFloatCore (l : List Char) : Option ℚ :=
  match splitOnChar '.' l with
  | [a] => (digitsToNat a).map (fun n => (n : ℚ))
  | [a, b] =>
    if a.isEmpty && b.isEmpty then none
    else if b.isEmpty then (digitsToNat a).map (fun n => (n : ℚ))
    else if a.isEmpty then
      (digitsToNat b).map (fun f => (f : ℚ) / 10 ^ b.length)
    else
      match digitsToNat a, digitsToNat b with
      | some n, some f => some ((n : ℚ) + (f : ℚ) / 10 ^ b.length)
      | _, _ => none
  | _ => none

/-- Python `float(s)` on the decimal literals ffprobe emits (optional
sign, digits, at most one point); `none` models `ValueError`. -/
def pyFloat (s : String) : Option ℚ :=
  match s.toList with
  | [] => none
  | c :: rest =>
    if c = '-' then (pyFloatCore rest).map (fun q => -q)
    else if c = '+' then pyFloatCore rest
    else pyFloatCore (c :: rest)

/-- Python `int(s)` on decimal integer literals (optional sign, digits
only — a point raises); `none` models `ValueError`. -/
def pyInt (s : String) : Option ℤ :=
  match s.toList with
  | [] => none
  | c :: rest =>
    if c = '-' then (digitsToNat rest).map (fun n => -(n : ℤ))
    else if c = '+' then (digitsToNat rest).map (fun n => (n : ℤ))
    else (digitsToNat (c :: rest)).map (fun n => (n : ℤ))

/-- The frame-rate field parse (video_processor.py:160-169): split on `/`;
with two pieces and a non-empty denominator, `float(num)/float(den)`
(`ValueError` and `ZeroDivisionError` both fall back to 30.0); otherwise
`float(first piece)` with the same fallback. -/
def parseFps (field : String) : ℚ :=
  let fps_parts := pySplit '/' field
  if fps_parts.length = 2 ∧ fps_parts.getD 1 "" ≠ "" then
    match pyFloat (fps_parts.getD 0 ""), pyFloat (fps_parts.getD 1 "") with
    | some a, some b => if b = 0 then 30 else a / b
    | _, _ => 30
  else (pyFloat (fps_parts.getD 0 "")).getD 30

/-- The dictionary `get_video_info` returns. -/
structure VideoInfoM where
  width : ℤ
  height : ℤ
  fps : ℚ
  duration : ℚ
  frame_count : ℤ
  size_bytes : Nat
  deriving Repr, DecidableEq

/-- `int(parts[0]) if len(parts) > 0 and parts[0] else 1920`; a `none`
models the `ValueError` that escapes to the outer handler. -/
def widthOpt (parts : List String) : Option ℤ :=
  if parts.length > 0 ∧ parts.getD 0 "" ≠ "" then pyInt (parts.getD 0 "") else some 1920

/-- `int(parts[1]) if len(parts) > 1 and parts[1] else 1080`. -/
def heightOpt (parts : List String) : Option ℤ :=
  if parts.length > 1 ∧ parts.getD 1 "" ≠ "" then pyInt (parts.getD 1 "") else some 1080

/-- The frame-rate field guard (`len(parts) > 2 and parts[2]`). -/
def fpsVal (parts : List String) : ℚ :=
  if parts.length > 2 ∧ parts.getD 2 "" ≠ "" then parseFps (parts.getD 2 "") else 30

/-- Stream-level duration: `float(parts[3])` guarded, `ValueError`
swallowed leaving 0.0. -/
def streamDuration (parts : List String) : ℚ :=
  if parts.length > 3 ∧ parts.getD 3 "" ≠ "" then (pyFloat (parts.getD 3 "")).getD 0 else 0

/-- The container-level `format=duration` query: a failing probe or a
failing `float()` both leave 0.0. -/
def containerDuration (containerProbe : Except Unit String) : ℚ :=
  match containerProbe with
  | .ok out => (pyFloat out).getD 0
  | .error _ => 0

/-- `if duration == 0.0:` fall back to the container-level query. -/
def effectiveDuration (parts : List String) (containerProbe : Except Unit String) : ℚ :=
  if streamDuration parts = 0 then containerDuration containerProbe
  else streamDuration parts

/-- `nb_frames` parse (`ValueError` swallowed leaving 0), then the
`int(duration * fps)` estimate when zero and both factors are positive
(truncation of a positive float equals the floor). -/
def frameCountVal (parts : List String) (dur fps : ℚ) : ℤ :=
  let fc : ℤ :=
    if parts.length > 4 ∧ parts.getD 4 "" ≠ "" then (pyInt (parts.getD 4 "")).getD 0 else 0
  if fc = 0 ∧ dur > 0 ∧ fps > 0 then ⌊dur * fps⌋ else fc

/-- The `except Exception` fallback structure: 1920×1080 @30fps,
duration 0. -/
def defaultVideoInfo (file_size : Nat) : VideoInfoM :=
  ⟨1920, 1080, 30, 0, 0, file_size⟩

/-- `VideoProcessor.get_video_info(video_path)` for an existing file of
`file_size` bytes.  `streamProbe` / `containerProbe` are the two ffprobe
invocations (stripped stdout on exit 0, error otherwise).  A `width` or
`height` whose field is non-empty but unparseable raises `ValueError`
inside the `try`, landing in the same default as a failed stream probe;
every other parse failure is handled field-locally.  The function is total
— the probe never raises for a file that exists. -/
def VideoProcessor.get_video_info (streamProbe containerProbe : Except Unit String)
    (file_size : Nat) : VideoInfoM :=
  match streamProbe with
  | .error _ => defaultVideoInfo file_size
  | .ok output =>
    let parts := pySplit ',' output
    match widthOpt parts, heightOpt parts with
    | some w, some hgt =>
      let fps := fpsVal parts
      let dur := effectiveDuration parts containerProbe
      ⟨w, hgt, fps, dur, frameCountVal parts dur fps, file_size⟩
    | _, _ => defaultVideoInfo file_size

theorem stringMkToList (s : String) : String.mk s.toList = s := by
  cases s
  rfl

theorem stringToListAppend (a b : String) : (a ++ b).toList = a.toList ++ b.toList := by
  cases a
  cases b
  rfl

theorem splitOnChar_no_sep (sep : Char) :
    ∀ l : List Char, sep ∉ l → splitOnChar sep l = [l] := by
  intro l
  induction l with
  | nil => intro _; rfl
  | cons c cs ih =>
    intro hmem
    have hc : ¬(c = sep) := fun h => hmem (h ▸ List.mem_cons_self c cs)
    have hcs : sep ∉ cs := fun h => hmem (List.mem_cons_of_mem c h)
    simp only [splitOnChar, ih hcs, if_neg hc]

theorem splitOnChar_append (sep : Char) :
    ∀ l1 l2 : List Char, sep ∉ l1 →
      splitOnChar sep (l1 ++ sep :: l2) = l1 :: splitOnChar sep l2 := by
  intro l1
  induction l1 with
  | nil => intro l2 _; simp [splitOnChar]
  | cons c cs ih =>
    intro l2 hmem
    have hc : ¬(c = sep) := fun h => hmem (h ▸ List.mem_cons_self c cs)
    have hcs : sep ∉ cs := fun h => hmem (List.mem_cons_of_mem c h)
    have ih2 : splitOnChar sep (cs.append (sep :: l2)) = cs :: splitOnChar sep l2 :=
      ih l2 hcs
    simp only [List.cons_append, splitOnChar, if_neg hc, ih2]

theorem pySplit_no_sep (sep : Char) (s : String) (h : sep ∉ s.toList) :
    pySplit sep s = [s] := by
  have h1 : splitOnChar sep s.toList = [s.toList] := splitOnChar_no_sep sep s.toList h
  unfold pySplit
  rw [h1]
  simp [stringMkToList]

theorem pySplit_pair (a b : String) (ha : '/' ∉ a.toList) (hb : '/' ∉ b.toList) :
    pySplit '/' (a ++ "/" ++ b) = [a, b] := by
  have htl : (a ++ "/" ++ b).toList = a.toList ++ '/' :: b.toList := by
    rw [stringToListAppend, stringToListAppend]
    simp
  have h1 : splitOnChar '/' ((a ++ "/" ++ b).toList) = a.toList :: [b.toList] := by
    rw [htl, splitOnChar_append '/' a.toList b.toList ha,
      splitOnChar_no_sep '/' b.toList hb]
  unfold pySplit
  rw [h1]
  simp [stringMkToList]

/-- C9: the frame rate is parsed as a rational `num/den` (absent
denominator ⇒ the value is `num = num / 1`; any parse failure, a zero
denominator included, yields 30); an absent-or-zero stream-level duration
falls back to the container-level query; and a failed stream probe yields
the fixed default 1920×1080 @30fps with duration 0.  Totality — the probe
never raising for an existing file — is reflected in
`VideoProcessor.get_video_info` returning `VideoInfoM` directly on every
input. -/
theorem C9_probe_parsing :
    (∀ a b : String, '/' ∉ a.toList → '/' ∉ b.toList → b ≠ "" →
      parseFps (a ++ "/" ++ b) =
        (match pyFloat a, pyFloat b with
         | some qa, some qb => if qb = 0 then 30 else qa / qb
         | _, _ => 30)) ∧
    (∀ a : String, '/' ∉ a.toList →
      parseFps a = (pyFloat a).getD 30 ∧
      (∀ q : ℚ, pyFloat a = some q → parseFps a = q / 1)) ∧
    (∀ (parts : List String) (cp : Except Unit String), streamDuration parts = 0 →
      effectiveDuration parts cp = containerDuration cp) ∧
    (∀ (parts : List String) (cp : Except Unit String), streamDuration parts ≠ 0 →
      effectiveDuration parts cp = streamDuration parts) ∧
    (∀ (output : String) (cp : Except Unit String) (sz : Nat) (w hgt : ℤ),
      widthOpt (pySplit ',' output) = some w →
      heightOpt (pySplit ',' output) = some hgt →
      VideoProcessor.get_video_info (.ok output) cp sz =
        ⟨w, hgt, fpsVal (pySplit ',' output),
         effectiveDuration (pySplit ',' output) cp,
         frameCountVal (pySplit ',' output)
           (effectiveDuration (pySplit ',' output) cp)
           (fpsVal (pySplit ',' output)), sz⟩) ∧
    (∀ (cp : Except Unit String) (sz : Nat),
      VideoProcessor.get_video_info (.error ()) cp sz = ⟨1920, 1080, 30, 0, 0, sz⟩) := by
  refine ⟨?_, ?_, ?_, ?_, ?_, fun cp sz => rfl⟩
  · intro a b ha hb hbne
    have hps := pySplit_pair a b ha hb
    simp [parseFps, hps, hbne]
  · intro a ha
    have hps := pySplit_no_sep '/' a ha
    constructor
    · simp [parseFps, hps]
    · intro q hq
      simp [parseFps, hps, hq]
  · intro parts cp h
    simp [effectiveDuration, h]
  · intro parts cp h
    simp [effectiveDuration, h]
  · intro output cp sz w hgt hw hh
    simp [VideoProcessor.get_video_info, hw, hh]


/-- Witness for C9: `30000/1001` parses as the rational, `30/0` and
`abc/2` fall back to 30, `25` has denominator 1, a stream line with an
empty duration field falls back to the container duration `7`, and a
failed stream probe yields the default structure. -/
theorem C9_probe_parsing_witness :
    parseFps "30000/1001" = 30000 / 1001 ∧
    parseFps "30/0" = 30 ∧
    parseFps "abc/2" = 30 ∧
    parseFps "25" = 25 ∧
    parseFps "" = 30 ∧
    effectiveDuration (pySplit ',' "1920,1080,30/1,,240") (.ok "7") = 7 ∧
    (VideoProcessor.get_video_info (.ok "1920,1080,30/1,,240") (.ok "7") 77).duration = 7 ∧
    VideoProcessor.get_video_info (.error ()) (.ok "3") 5 = ⟨1920, 1080, 30, 0, 0, 5⟩ := by
  obtain ⟨hfps, hsingle, hfall, _, hok, herr⟩ := C9_probe_parsing
  have hdur : effectiveDuration (pySplit ',' "1920,1080,30/1,,240") (.ok "7") = 7 := by
    rw [hfall (pySplit ',' "1920,1080,30/1,,240") (.ok "7") (by decide)]
    simp [containerDuration, pyFloat, pyFloatCore, splitOnChar, digitsToNat, digitsToNatAux]
  refine ⟨?_, ?_, ?_, ?_, ?_, hdur, ?_, herr (.ok "3") 5⟩
  · have happ : ("30000" : String) ++ "/" ++ "1001" = "30000/1001" := by decide
    rw [← happ, hfps "30000" "1001" (by decide) (by decide) (by decide)]
    have ha : pyFloat "30000" = some 30000 := by
      simp [pyFloat, pyFloatCore, splitOnChar, digitsToNat, digitsToNatAux]
    have hb : pyFloat "1001" = some 1001 := by
      simp [pyFloat, pyFloatCore, splitOnChar, digitsToNat, digitsToNatAux]
    rw [ha, hb]
    norm_num
  · have happ : ("30" : String) ++ "/" ++ "0" = "30/0" := by decide
    rw [← happ, hfps "30" "0" (by decide) (by decide) (by decide)]
    have ha : pyFloat "30" = some 30 := by
      simp [pyFloat, pyFloatCore, splitOnChar, digitsToNat, digitsToNatAux]
    have hb : pyFloat "0" = some 0 := by
      simp [pyFloat, pyFloatCore, splitOnChar, digitsToNat, digitsToNatAux]
    rw [ha, hb]
    norm_num
  · have happ : ("abc" : String) ++ "/" ++ "2" = "abc/2" := by decide
    rw [← happ, hfps "abc" "2" (by decide) (by decide) (by decide)]
    have ha : pyFloat "abc" = none := by
      simp [pyFloat, pyFloatCore, splitOnChar, digitsToNat, digitsToNatAux]
    rw [ha]
  · rw [(hsingle "25" (by decide)).1]
    have ha : pyFloat "25" = some 25 := by
      simp [pyFloat, pyFloatCore, splitOnChar, digitsToNat, digitsToNatAux]
    rw [ha]
    rfl
  · rw [(hsingle "" (by decide)).1]
    rfl
  · rw [hok "1920,1080,30/1,,240" (.ok "7") 77 1920 1080 (by decide) (by decide)]
    exact hdur
